import Mathlib

/-!
Verification development for the installd command core
(`src/cmds/installd/commands.cpp`).

The C code is shallowly embedded: pure helpers become Lean functions;
the filesystem-mutating commands become functions over an explicit
filesystem state (or an explicit trace of filesystem effects), with the
outcomes of external collaborators (system properties, the `cp` child,
SELinux relabelling, the compiler child's exit status) supplied by an
environment record.  Helpers that live in other files of the repository
(`utils.cpp`, `globals.h`, libc constants) are modelled from the spec and
marked as such in their doc comments.
-/

namespace Installd

/-- Modelled from the spec: the compile-time path-buffer bound
`PKG_PATH_MAX` (defined in the repository's headers, not in `src/`). -/
def PKG_PATH_MAX : Nat := 1024

/-- Modelled from the spec: the libc `PATH_MAX` bound used for the
`char tmpdir[PATH_MAX]` buffer in `free_cache`. -/
def PATH_MAX : Nat := 4096

/-- Modelled from the spec: `AID_SYSTEM` from
`private/android_filesystem_config.h` (outside `src/`): owner uid of OAT
outputs. -/
def AID_SYSTEM : Nat := 1000

/-- `SIZE_MAX`, the largest value of the C type `size_t` (64-bit). -/
def SIZE_MAX : Nat := 2 ^ 64 - 1

/-!
## System properties

`get_property(name, buf, default)` returns the length of the value (or of
the default when the property is unset); every call site in the file
treats "present" as "returned length positive".  A property store is
therefore a total map to strings, with the empty string standing for an
unset (or empty-valued, which the code cannot distinguish) property.
-/

/-- A system-property store: total map, `""` means unset. -/
def Props := String → String

/-- `check_boolean_property` from `commands.cpp`: if the property is
unset return the default, otherwise test the value against `"true"`. -/
def check_boolean_property (props : Props) (name : String) (defaultValue : Bool) : Bool :=
  if props name = "" then defaultValue
  else props name == "true"

/-!
## Path family (modelled from the spec)

The path constructors live in `utils.cpp`, which is not part of `src/`;
they are modelled from the spec's on-disk layout (§6 of the spec):
`/data/app/<dir>`, `/data/user/<u>/<pkg>` (CE), `/data/user_de/<u>/<pkg>`
(DE), `/data/media/<u>`, `/data/dalvik-cache/<isa>/...`, with an adopted
volume rooted at `/mnt/expand/<uuid>`.
-/

/-- Modelled from the spec: `create_data_path`; `none` is the
distinguished null volume meaning internal storage. -/
def create_data_path : Option String → String
  | none => "/data"
  | some uuid => "/mnt/expand/" ++ uuid

/-- Modelled from the spec: `create_data_app_path`. -/
def create_data_app_path (uuid : Option String) : String :=
  create_data_path uuid ++ "/app"

/-- Modelled from the spec: `create_data_app_package_path`. -/
def create_data_app_package_path (uuid : Option String) (dataAppName : String) : String :=
  create_data_app_path uuid ++ "/" ++ dataAppName

/-- Modelled from the spec: `create_data_user_path` (CE user root). -/
def create_data_user_path (uuid : Option String) (user : Nat) : String :=
  create_data_path uuid ++ "/user/" ++ toString user

/-- Modelled from the spec: `create_data_user_package_path` (CE). -/
def create_data_user_package_path (uuid : Option String) (user : Nat) (pkg : String) : String :=
  create_data_user_path uuid user ++ "/" ++ pkg

/-- Modelled from the spec: `create_data_user_de_path` (DE user root). -/
def create_data_user_de_path (uuid : Option String) (user : Nat) : String :=
  create_data_path uuid ++ "/user_de/" ++ toString user

/-- Modelled from the spec: `create_data_user_de_package_path` (DE). -/
def create_data_user_de_package_path (uuid : Option String) (user : Nat) (pkg : String) : String :=
  create_data_user_de_path uuid user ++ "/" ++ pkg

/-- Modelled from the spec: `SECONDARY_USER_PREFIX` appended to the data
root when sweeping secondary users in `free_cache`. -/
def SECONDARY_USER_PREFIX : String := "user/"

/-- Modelled from the spec: `android_media_dir.path`, the external-media
root (with its trailing slash, as stored in the `dir_rec_t`). -/
def android_media_dir_path : String := "/data/media/"

/-- Character substitution used when flattening paths: `/` becomes `@`. -/
def flattenChar (c : Char) : Char := if c = '/' then '@' else c

/-- Modelled from the spec: `create_cache_path` computes the flat
dalvik-cache output `<dalvik-cache>/<isa>/<escaped apk>@classes.dex`
where the escaped APK path is the path without its leading `/` and with
every `/` replaced by `@`; it fails when the result would not fit in
`PKG_PATH_MAX`. -/
def create_cache_path (apkPath isa : String) : Option String :=
  let p := "/data/dalvik-cache/" ++ isa ++ "/" ++
      String.mk ((apkPath.data.drop 1).map flattenChar) ++ "@classes.dex"
  if p.length < PKG_PATH_MAX then some p else none

/-- Replace the extension of a file name (the part after the last `.`)
with `newExt`; fails when the name has no dot. -/
def replaceExt (s newExt : String) : Option String :=
  let parts := s.splitOn "."
  if parts.length ≤ 1 then none
  else some (String.intercalate "." parts.dropLast ++ newExt)

/-- Modelled from the spec: `calculate_oat_file_path` computes
`oat_dir/<isa>/<basename>.odex` from the APK path. -/
def calculate_oat_file_path (oatDir apkPath isa : String) : Option String :=
  (replaceExt ((apkPath.splitOn "/").getLastD "") ".odex").map
    (fun b => oatDir ++ "/" ++ isa ++ "/" ++ b)

/-- Modelled from the spec: `calculate_odex_file_path` computes the path
of the precompiled `.odex` alongside the APK:
`<apk dir>/oat/<isa>/<basename>.odex`. -/
def calculate_odex_file_path (apkPath isa : String) : Option String :=
  let parts := apkPath.splitOn "/"
  if parts.length < 2 then none
  else (replaceExt (parts.getLastD "") ".odex").map
    (fun b => String.intercalate "/" parts.dropLast ++ "/oat/" ++ isa ++ "/" ++ b)

/-!
## `flatten_path` (idmap path generation)

Direct translation of `flatten_path` from `commands.cpp`.  The C function
writes into a caller buffer of size `N` and returns 0 or -1; the model
returns `Option String`.  The `/`→`@` substitution starts at offset
`strlen(prefix)`, i.e. it covers the copied overlay path (without its
leading slash) and the suffix, but not the prefix.
-/

/-- `flatten_path(prefix, suffix, overlay_path, idmap_path, N)` from
`commands.cpp`, with the written buffer as the `some` result. -/
def flatten_path (pfx sfx overlayPath : String) (N : Nat) : Option String :=
  if overlayPath.length < 2 ∨ overlayPath.data.head? ≠ some '/' then none
  else if SIZE_MAX - pfx.length < overlayPath.length ∨
      SIZE_MAX - (pfx.length + overlayPath.length) < sfx.length then none
  else if N < pfx.length + overlayPath.length + sfx.length then none
  else some (pfx ++ String.mk ((overlayPath.data.drop 1 ++ sfx.data).map flattenChar))

/-!
## Swap-file policy
-/

/-- Compile-time override: always provide a swap file (source value:
`false`). -/
def kAlwaysProvideSwapFile : Bool := false

/-- Compile-time default for the swap-file decision (source value:
`true`). -/
def kDefaultProvideSwapFile : Bool := true

/-- `ShouldUseSwapFileForDexopt` from `commands.cpp`, with the two
compile-time booleans as parameters and the property store explicit.
The structure (including the early shortcut on the default and the final
`return kDefaultProvideSwapFile`) mirrors the source. -/
def ShouldUseSwapFileForDexopt (kAlways kDefault : Bool) (props : Props) : Bool :=
  if kAlways then true
  else if props "dalvik.vm.dex2oat-swap" ≠ "" then
    props "dalvik.vm.dex2oat-swap" == "true"
  else if kDefault then true
  else if check_boolean_property props "ro.config.low_ram" false then true
  else kDefault

/-!
## Filesystem state for `dexopt`

`dexopt` mutates a small number of named files; the state is a map from
path to metadata.  Syscalls act deterministically on this state: `open`
with `O_CREAT|O_EXCL` succeeds exactly when the path is absent (which it
always is right after the preceding `unlink`), `fchmod`/`fchown`/`utime`
update the metadata, `unlink` removes the entry.  The compiler child
writes file *contents* only, which the metadata map does not track.
-/

/-- Metadata of one file: mode bits, owner uid/gid, access and
modification times. -/
structure FileMeta where
  mode : Nat
  uid : Nat
  gid : Nat
  atime : Nat
  mtime : Nat
deriving DecidableEq

/-- The filesystem: which paths exist and with which metadata. -/
def FS := String → Option FileMeta

/-- Create or replace the entry at `p`. -/
def FS.set (fs : FS) (p : String) (m : FileMeta) : FS :=
  fun q => if q = p then some m else fs q

/-- `unlink p`. -/
def FS.del (fs : FS) (p : String) : FS :=
  fun q => if q = p then none else fs q

/-- `utime p` with the given access/modification times (no effect when
the path is absent, as the ignored failing syscall). -/
def FS.setTimes (fs : FS) (p : String) (a m : Nat) : FS :=
  fun q => if q = p then (fs p).map (fun meta => { meta with atime := a, mtime := m }) else fs q

/-- The `dexopt_needed` discriminator. -/
inductive DexoptNeeded where
  | dex2oatNeeded
  | patchoatNeeded
  | selfPatchoatNeeded
deriving DecidableEq

/-- The `dexopt_flags` bit-set, decomposed. -/
structure DexoptFlags where
  isPublic : Bool
  vmSafeMode : Bool
  debuggable : Bool
  bootComplete : Bool
  useJit : Bool
deriving DecidableEq

/-- Arguments of `dexopt`. -/
structure DexoptArgs where
  apkPath : String
  uid : Nat
  pkgname : String
  instructionSet : String
  dexoptNeeded : DexoptNeeded
  oatDir : Option String
  flags : DexoptFlags
  volumeUuid : Option String
  useProfiles : Bool

/-- Outcomes of the external collaborators consulted by `dexopt`:
how many (current, reference) profile-fd pairs `open_profile_files`
gathered, whether `validate_apk_path(oat_dir)` accepted the oat
directory, the property store, whether the exclusive-create `open` of
the output, the `fchmod`, the `fchown` and the swap-file `open`
succeed (each an explicit failure branch in the source), the
`wait_child` status of the forked compiler, and the current time used
for newly created entries. -/
structure DexoptEnv where
  profilePairs : Nat
  oatDirValid : Bool
  props : Props
  openOutOk : Bool
  fchmodOk : Bool
  fchownOk : Bool
  swapOpenOk : Bool
  childStatus : Nat
  now : Nat

/-- Result of a `dexopt` call: the returned code, whether the call
proceeded to fork a compiler child, and the filesystem on return. -/
structure DexoptResult where
  ret : Int
  forked : Bool
  fs : FS

/-- Output-path derivation of `dexopt`: a valid `oat_dir` (given,
not `!`, accepted by the validator) selects
`calculate_oat_file_path`, otherwise the flat `create_cache_path`;
`none` collapses the code's distinct -1 returns. -/
def dexoptOutPath (a : DexoptArgs) (env : DexoptEnv) : Option String :=
  match a.oatDir with
  | some d =>
    if d.data.head? ≠ some '!' then
      if ¬ env.oatDirValid then none
      else calculate_oat_file_path d a.apkPath a.instructionSet
    else create_cache_path a.apkPath a.instructionSet
  | none => create_cache_path a.apkPath a.instructionSet

/-- Input selection of `dexopt` by discriminator: the APK for dex2oat,
the `.odex` alongside the APK for patchoat, the prior output for
self-patchoat. -/
def dexoptInputFile (a : DexoptArgs) (outPath : String) : Option String :=
  match a.dexoptNeeded with
  | .dex2oatNeeded => some a.apkPath
  | .patchoatNeeded => calculate_odex_file_path a.apkPath a.instructionSet
  | .selfPatchoatNeeded => some outPath

/-- `dexopt` from `commands.cpp` over the filesystem model, following
the source's sequence: profile-skip, path-length guard, output-path
derivation, input selection, `stat` of the input, `open` of the input
(fails iff absent), `unlink` of the output, exclusive-create of the
output at mode 0644 (its failure returns -1 with the stale output
already unlinked and `out_fd < 0`, so the fail label does not unlink),
`fchmod` to 0640 plus other-read iff PUBLIC and `fchown` to
`(AID_SYSTEM, uid)` (each failure goes to the fail label, which closes
and unlinks the output), optional swap file (pre-unlinked, created
0600 and immediately unlinked; a failing create is tolerated), fork
and wait; on child success the input's times are copied onto the
output with `utime`, on child failure the output is unlinked. -/
def dexopt (a : DexoptArgs) (env : DexoptEnv) (fs : FS) : DexoptResult :=
  if a.useProfiles ∧ env.profilePairs = 0 then ⟨0, false, fs⟩
  else if PKG_PATH_MAX - 8 ≤ a.apkPath.length then ⟨-1, false, fs⟩
  else
    match dexoptOutPath a env with
    | none => ⟨-1, false, fs⟩
    | some outPath =>
      match dexoptInputFile a outPath with
      | none => ⟨-1, false, fs⟩
      | some inputFile =>
        match fs inputFile with
        | none => ⟨-1, false, fs⟩
        | some inMeta =>
          let fs0 := fs.del outPath
          if ¬ env.openOutOk then ⟨-1, false, fs0⟩
          else
            let fs1 := fs0.set outPath ⟨0o644, 0, 0, env.now, env.now⟩
            if ¬ env.fchmodOk then ⟨-1, false, fs1.del outPath⟩
            else
              let outMode : Nat := if a.flags.isPublic then 0o644 else 0o640
              let fs2 := fs1.set outPath ⟨outMode, 0, 0, env.now, env.now⟩
              if ¬ env.fchownOk then ⟨-1, false, fs2.del outPath⟩
              else
                let fs3 := fs2.set outPath ⟨outMode, AID_SYSTEM, a.uid, env.now, env.now⟩
                let swapName := outPath ++ ".swap"
                let fs4 :=
                  if ShouldUseSwapFileForDexopt kAlwaysProvideSwapFile kDefaultProvideSwapFile
                      env.props then
                    if outPath.length + 6 ≤ PKG_PATH_MAX then
                      if env.swapOpenOk then
                        (((fs3.del swapName).set swapName
                          ⟨0o600, 0, 0, env.now, env.now⟩).del swapName)
                      else fs3.del swapName
                    else fs3
                  else fs3
                if env.childStatus = 0 then
                  ⟨0, true, fs4.setTimes outPath inMeta.atime inMeta.mtime⟩
                else
                  ⟨-1, true, fs4.del outPath⟩

/-!
## `run_dex2oat` argument vector

Pure model of the argv that `run_dex2oat` builds before `execv`.  The
function early-returns (no exec, modelled as `none`) when the
instruction set is too long or the two profile-fd lists differ in
length.  Element order follows the source exactly.
-/

/-- The literal `--runtime-arg` separator. -/
def RUNTIME_ARG : String := "--runtime-arg"

/-- The literal norelocation runtime argument. -/
def dex2oat_norelocation : String := "-Xnorelocate"

/-- Accumulator pass of `splitTokens` over the character list. -/
def splitTokensAux : List Char → List Char → List String
  | [], acc => if acc = [] then [] else [String.mk acc.reverse]
  | c :: cs, acc =>
    if c = ' ' then
      if acc = [] then splitTokensAux cs []
      else String.mk acc.reverse :: splitTokensAux cs []
    else splitTokensAux cs (c :: acc)

/-- `strtok(buf, " ")` splitting used for `dalvik.vm.dex2oat-flags`:
space-separated tokens, empty tokens dropped. -/
def splitTokens (s : String) : List String :=
  splitTokensAux s.data []

/-- `vold.decrypt` says we are booting without the real /data: the
property is present and equals `trigger_restart_min_framework` or `1`. -/
def dex2oatSkipCompilation (props : Props) : Bool :=
  props "vold.decrypt" ≠ "" &&
    (props "vold.decrypt" == "trigger_restart_min_framework" || props "vold.decrypt" == "1")

/-- The interleaved `--profile-file-fd=`/`--reference-profile-file-fd=`
argument pairs (the `for k` loop of `run_dex2oat`). -/
def profileFdArgs : List Nat → List Nat → List String
  | p :: ps, r :: rs =>
    ("--profile-file-fd=" ++ toString p) ::
      ("--reference-profile-file-fd=" ++ toString r) :: profileFdArgs ps rs
  | _, _ => []

/-- The compiler-filter argument slot together with the norelocation
flag, chosen by the source's first-match chain. -/
def dex2oatFilterChoice (props : Props) (vmSafeMode useJitEff : Bool) :
    Option String × Bool :=
  if dex2oatSkipCompilation props then (some "--compiler-filter=verify-none", true)
  else if vmSafeMode then (some "--compiler-filter=interpret-only", false)
  else if useJitEff then (some "--compiler-filter=verify-at-runtime", false)
  else if props "dalvik.vm.dex2oat-filter" ≠ "" then
    (some ("--compiler-filter=" ++ props "dalvik.vm.dex2oat-filter"), false)
  else (none, false)

/-- The argv built by `run_dex2oat` (without the terminating `NULL`),
or `none` when the function returns before `execv`. -/
def run_dex2oat_argv (zipFd oatFd : Nat) (inputFileName outputFileName : String)
    (swapFd : Option Nat) (isa : String)
    (vmSafeMode debuggable postBootcomplete useJit : Bool)
    (profileFds referenceProfileFds : List Nat) (props : Props) :
    Option (List String) :=
  if 7 ≤ isa.length then none
  else if profileFds.length ≠ referenceProfileFds.length then none
  else
    let xms := props "dalvik.vm.dex2oat-Xms"
    let xmx := props "dalvik.vm.dex2oat-Xmx"
    let threads := props (if postBootcomplete then "dalvik.vm.dex2oat-threads"
      else "dalvik.vm.boot-dex2oat-threads")
    let isaFeatures := props ("dalvik.vm.isa." ++ isa ++ ".features")
    let isaVariant := props ("dalvik.vm.isa." ++ isa ++ ".variant")
    let flagsTokens := splitTokens (props "dalvik.vm.dex2oat-flags")
    let generateDebugInfo := check_boolean_property props "debug.generate-debug-info" false
    let useJitEff := useJit || check_boolean_property props "debug.usejit" false
    let debuggableEff := debuggable ||
      (props "dalvik.vm.always_debuggable" ≠ "" ∧
        (props "dalvik.vm.always_debuggable").data.head? = some '1')
    let choice := dex2oatFilterChoice props vmSafeMode useJitEff
    some
      (["/system/bin/dex2oat",
        "--zip-fd=" ++ toString zipFd,
        "--zip-location=" ++ inputFileName,
        "--oat-fd=" ++ toString oatFd,
        "--oat-location=" ++ outputFileName,
        "--instruction-set=" ++ isa]
      ++ (if isaVariant ≠ "" then ["--instruction-set-variant=" ++ isaVariant] else [])
      ++ (if isaFeatures ≠ "" then ["--instruction-set-features=" ++ isaFeatures] else [])
      ++ (if xms ≠ "" then [RUNTIME_ARG, "-Xms" ++ xms] else [])
      ++ (if xmx ≠ "" then [RUNTIME_ARG, "-Xmx" ++ xmx] else [])
      ++ (match choice.1 with | some f => [f] | none => [])
      ++ (if threads ≠ "" then ["-j" ++ threads] else [])
      ++ (match swapFd with | some fd => ["--swap-fd=" ++ toString fd] | none => [])
      ++ (if generateDebugInfo then ["--generate-debug-info"] else [])
      ++ (if debuggableEff then ["--debuggable"] else [])
      ++ flagsTokens
      ++ (if choice.2 then [RUNTIME_ARG, dex2oat_norelocation] else [])
      ++ profileFdArgs profileFds referenceProfileFds)

/-!
## `free_cache` root collection

`free_cache` queries free space, collects `cache/` roots with
`add_cache_files`, runs the evictor and re-checks.  The model keeps the
ordered list of roots that are handed to `add_cache_files`; the two
`readdir` loops become maps of a per-entry step function over the
directory listing supplied by the environment.
-/

/-- One `readdir` entry: its name and whether `d_type == DT_DIR`. -/
structure DirEnt where
  name : String
  isDir : Bool
deriving DecidableEq

/-- What the sweep does with one directory entry. -/
inductive SweepAction where
  | skip
  | warn
  | addRoot (path : String)
deriving DecidableEq

/-- First character of a name is an ASCII digit (`name[0] >= '0' &&
name[0] <= '9'`). -/
def digitInitial (s : String) : Bool :=
  match s.data.head? with
  | some c => decide ('0' ≤ c ∧ c ≤ '9')
  | none => false

/-- Modelled from the spec: `lookup_media_dir` looks for the named
subdirectory of `basepath` and appends it to the path on success. -/
def lookup_media_dir (hasSubdir : String → String → Bool) (basepath d : String) :
    Option String :=
  if hasSubdir basepath d then some (basepath ++ "/" ++ d) else none

/-- Step of the secondary-user loop of `free_cache`: non-directories
are ignored, `.` and `..` are skipped, names overflowing the
`PATH_MAX` buffer are skipped with a warning, everything else becomes a
root. -/
def dataUserEntryAction (base : String) (e : DirEnt) : SweepAction :=
  if ¬ e.isDir then .skip
  else if e.name = "." ∨ e.name = ".." then .skip
  else if e.name.length + base.length < PATH_MAX - 1 then .addRoot (base ++ e.name)
  else .warn

/-- Step of the external-media loop of `free_cache`: non-directories
and names not starting with a digit are skipped, overlong names are
skipped with a warning, and an eligible user directory becomes a root
only when the two `lookup_media_dir` probes (for `Android`, then
`data`) succeed — the root then being the probed `.../Android/data`
path. -/
def mediaEntryAction (hasSubdir : String → String → Bool) (base : String) (e : DirEnt) :
    SweepAction :=
  if ¬ e.isDir then .skip
  else if ¬ digitInitial e.name then .skip
  else if e.name.length + base.length < PATH_MAX - 1 then
    match lookup_media_dir hasSubdir (base ++ e.name) "Android" with
    | none => .skip
    | some p =>
      match lookup_media_dir hasSubdir p "data" with
      | none => .skip
      | some q => .addRoot q
  else .warn

/-- The roots named by a list of sweep actions, in order. -/
def sweepRoots (acts : List SweepAction) : List String :=
  acts.filterMap (fun a => match a with | .addRoot p => some p | _ => none)

/-- External facts consulted by `free_cache`: free bytes before and
after the eviction, the two directory listings (`none` when `opendir`
fails), and the subdirectory oracle behind `lookup_media_dir`. -/
structure FreeCacheEnv where
  availBefore : Int
  availAfter : Int
  dataEntries : Option (List DirEnt)
  mediaEntries : Option (List DirEnt)
  hasSubdir : String → String → Bool

/-- The base path of the secondary-user loop:
`create_data_path(uuid) + "/" + SECONDARY_USER_PREFIX`. -/
def freeCacheDataBase (uuid : Option String) : String :=
  create_data_path uuid ++ "/" ++ SECONDARY_USER_PREFIX

/-- `free_cache` from `commands.cpp`: the returned code and the ordered
list of roots passed to `add_cache_files`. -/
def free_cache (uuid : Option String) (freeSize : Int) (env : FreeCacheEnv) :
    Int × List String :=
  if env.availBefore < 0 then (-1, [])
  else if freeSize ≤ env.availBefore then (0, [])
  else
    let owner := if uuid = none then [create_data_user_path none 0] else []
    let dataActs := (env.dataEntries.getD []).map
      (dataUserEntryAction (freeCacheDataBase uuid))
    let mediaActs := (env.mediaEntries.getD []).map
      (mediaEntryAction env.hasSubdir android_media_dir_path)
    let roots := owner ++ sweepRoots dataActs ++ sweepRoots mediaActs
    (if freeSize ≤ env.availAfter then 0 else -1, roots)

/-- A name consisting of one or more decimal digits ("numeric-named"). -/
def isNumericName (s : String) : Bool :=
  s.data ≠ [] && s.data.all (fun c => '0' ≤ c && c ≤ '9')

/-!
## App-data lifecycle and `move_complete_app`

These commands mutate whole directory subtrees through helpers
(`fs_prepare_dir`, `cp`, SELinux relabelling, recursive delete); the
model records the ordered trace of those filesystem effects, with each
helper's success supplied by the environment.  `MvEffect.writeRoot` is
the directory an effect creates, modifies or deletes.
-/

/-- One filesystem effect of the app-data/move commands. -/
inductive MvEffect where
  | copyTree (src dstParent : String)
  | restoreconRec (path : String)
  | prepareDir (path : String)
  | prepareDirStrict (path : String)
  | setfilecon (path : String)
  | restoreconPkg (path : String)
  | deleteTree (path : String)
deriving DecidableEq

/-- The path an effect writes to (for `cp`, the destination parent the
subtree is copied into; a plain relabel or probe also touches only its
own path). -/
def MvEffect.writeRoot : MvEffect → String
  | .copyTree _ d => d
  | .restoreconRec p => p
  | .prepareDir p => p
  | .prepareDirStrict p => p
  | .setfilecon p => p
  | .restoreconPkg p => p
  | .deleteTree p => p

/-- Success oracles for `create_app_data`'s helpers. -/
structure CreateAppDataEnv where
  prepareStrictOk : String → Bool
  setfileconOk : String → Bool

/-- One storage class of `create_app_data`: strict prepare then
setfilecon, failing fast. -/
def prepareAppDirClass (p : String) (env : CreateAppDataEnv) : Int × List MvEffect :=
  if ¬ env.prepareStrictOk p then (-1, [.prepareDirStrict p])
  else if ¬ env.setfileconOk p then (-1, [.prepareDirStrict p, .setfilecon p])
  else (0, [.prepareDirStrict p, .setfilecon p])

/-- `create_app_data` from `commands.cpp`: CE class first (early return
on failure), then DE class. -/
def create_app_data (uuid : Option String) (pkg : String) (user : Nat)
    (ce de : Bool) (env : CreateAppDataEnv) : Int × List MvEffect :=
  if ce then
    let r := prepareAppDirClass (create_data_user_package_path uuid user pkg) env
    if r.1 ≠ 0 then r
    else if de then
      let s := prepareAppDirClass (create_data_user_de_package_path uuid user pkg) env
      (s.1, r.2 ++ s.2)
    else (0, r.2)
  else if de then
    prepareAppDirClass (create_data_user_de_package_path uuid user pkg) env
  else (0, [])

/-- Success oracle for `restorecon_app_data`'s recursive relabel. -/
structure RestoreconEnv where
  restoreconPkgOk : String → Bool

/-- `restorecon_app_data` from `commands.cpp`: null package or seinfo
is rejected; a CE relabel failure sets the result to -1; a DE relabel
failure is logged only and leaves the result untouched. -/
def restorecon_app_data (uuid : Option String) (pkgName seinfo : Option String)
    (user : Nat) (ce de : Bool) (env : RestoreconEnv) : Int × List MvEffect :=
  match pkgName, seinfo with
  | some pkg, some _ =>
    let cePath := create_data_user_package_path uuid user pkg
    let dePath := create_data_user_de_package_path uuid user pkg
    let res : Int := if ce ∧ ¬ env.restoreconPkgOk cePath then -1 else 0
    let effs := (if ce then [MvEffect.restoreconPkg cePath] else []) ++
      (if de then [MvEffect.restoreconPkg dePath] else [])
    (res, effs)
  | _, _ => (-1, [])

/-- Arguments of `move_complete_app`. -/
structure MoveArgs where
  fromUuid : Option String
  toUuid : Option String
  packageName : String
  dataAppName : String
  seinfo : String

/-- External outcomes consulted by `move_complete_app`: the known users
of the source volume, per-source-path `cp` success, recursive
restorecon success, `fs_prepare_dir` success, the `create_app_data` and
`restorecon_app_data` oracles, and per-path existence of the per-user
source data. -/
structure MoveEnv where
  users : List Nat
  cpOk : String → Bool
  restoreconRecOk : String → Bool
  prepareDirOk : String → Bool
  appData : CreateAppDataEnv
  restorecon : RestoreconEnv
  srcExists : String → Bool

/-- The rollback run at the `fail` label of `move_complete_app`: a
best-effort recursive delete of the destination app directory and of
every per-user destination CE package directory. -/
def moveRollback (a : MoveArgs) (users : List Nat) : List MvEffect :=
  MvEffect.deleteTree (create_data_app_package_path a.toUuid a.dataAppName) ::
    users.map (fun u =>
      MvEffect.deleteTree (create_data_user_package_path a.toUuid u a.packageName))

/-- One iteration of the per-user copy loop of `move_complete_app`:
skip a missing source, otherwise prepare the destination user root,
create the destination app data (both storage classes), run `cp`, and
restorecon the destination; the boolean is false when the iteration
jumps to `fail`. -/
def moveUserStep (a : MoveArgs) (env : MoveEnv) (u : Nat) : Bool × List MvEffect :=
  let fromP := create_data_user_package_path a.fromUuid u a.packageName
  if ¬ env.srcExists fromP then (true, [])
  else
    let userPath := create_data_user_path a.toUuid u
    if ¬ env.prepareDirOk userPath then (false, [.prepareDir userPath])
    else
      let cad := create_app_data a.toUuid a.packageName u true true env.appData
      if cad.1 ≠ 0 then (false, .prepareDir userPath :: cad.2)
      else
        let toParent := create_data_user_path a.toUuid u
        if ¬ env.cpOk fromP then
          (false, .prepareDir userPath :: cad.2 ++ [.copyTree fromP toParent])
        else
          let rad := restorecon_app_data a.toUuid (some a.packageName) (some a.seinfo)
            u true true env.restorecon
          if rad.1 ≠ 0 then
            (false, .prepareDir userPath :: cad.2 ++ [.copyTree fromP toParent] ++ rad.2)
          else
            (true, .prepareDir userPath :: cad.2 ++ [.copyTree fromP toParent] ++ rad.2)

/-- The per-user loop of `move_complete_app`, stopping at the first
failing iteration. -/
def moveUserLoop (a : MoveArgs) (env : MoveEnv) : List Nat → Bool × List MvEffect
  | [] => (true, [])
  | u :: rest =>
    let s := moveUserStep a env u
    if s.1 then
      let r := moveUserLoop a env rest
      (r.1, s.2 ++ r.2)
    else (false, s.2)

/-- `move_complete_app` from `commands.cpp`: copy the app directory,
restorecon it, run the per-user loop; on any failure run the rollback
and return -1. -/
def move_complete_app (a : MoveArgs) (env : MoveEnv) : Int × List MvEffect :=
  let fromApp := create_data_app_package_path a.fromUuid a.dataAppName
  let toApp := create_data_app_package_path a.toUuid a.dataAppName
  let toAppParent := create_data_app_path a.toUuid
  if ¬ env.cpOk fromApp then
    (-1, [.copyTree fromApp toAppParent] ++ moveRollback a env.users)
  else if ¬ env.restoreconRecOk toApp then
    (-1, [.copyTree fromApp toAppParent, .restoreconRec toApp] ++ moveRollback a env.users)
  else
    let l := moveUserLoop a env env.users
    let tr := MvEffect.copyTree fromApp toAppParent :: MvEffect.restoreconRec toApp :: l.2
    if l.1 then (0, tr) else (-1, tr ++ moveRollback a env.users)

/-- The destination paths `move_complete_app` may write to. -/
def moveDestPaths (a : MoveArgs) (users : List Nat) : List String :=
  create_data_app_path a.toUuid ::
    create_data_app_package_path a.toUuid a.dataAppName ::
    (users.map (fun u => create_data_user_path a.toUuid u) ++
     users.map (fun u => create_data_user_package_path a.toUuid u a.packageName) ++
     users.map (fun u => create_data_user_de_package_path a.toUuid u a.packageName))

/-- The source paths the claim says are never touched. -/
def moveSrcPaths (a : MoveArgs) (users : List Nat) : List String :=
  create_data_app_path a.fromUuid ::
    create_data_app_package_path a.fromUuid a.dataAppName ::
    users.map (fun u => create_data_user_package_path a.fromUuid u a.packageName)

/-!
## `rm_dex`
-/

/-- External facts for `rm_dex`: validator verdicts (`true` meaning the
validator returned 0, i.e. accepted) and the filesystem's existing
paths. -/
structure RmDexEnv where
  validApk : Bool
  validSys : Bool
  fs : String → Bool

/-- `rm_dex` from `commands.cpp`: reject a path both validators refuse,
compute the cache OAT path, and `unlink` it — any `unlink` failure
(including `ENOENT`, i.e. the path not existing) returns -1. -/
def rm_dex (path isa : String) (env : RmDexEnv) : Int × (String → Bool) :=
  if ¬ env.validApk ∧ ¬ env.validSys then (-1, env.fs)
  else
    match create_cache_path path isa with
    | none => (-1, env.fs)
    | some dexPath =>
      if env.fs dexPath then (0, fun q => if q = dexPath then false else env.fs q)
      else (-1, env.fs)

/-!
## Concrete instances used by witnesses and counterexamples
-/

/-- Restorecon oracle that succeeds everywhere except on the DE
directory of `com.x` for user 0. -/
def rcEnvW : RestoreconEnv :=
  ⟨fun p => p != create_data_user_de_package_path none 0 "com.x"⟩

/-- `rm_dex` environment: APK validator accepts, nothing exists. -/
def rmEnvW : RmDexEnv :=
  ⟨true, false, fun _ => false⟩

/-- Concrete `dexopt` arguments: plain dex2oat compile of `/a/b.apk`
for uid 42, no oat directory, no flags, no profiles. -/
def dexArgsW : DexoptArgs :=
  { apkPath := "/a/b.apk", uid := 42, pkgname := "p", instructionSet := "arm",
    dexoptNeeded := .dex2oatNeeded, oatDir := none,
    flags := ⟨false, false, false, false, false⟩, volumeUuid := none,
    useProfiles := false }

/-- The cache output path derived for `dexArgsW`. -/
def dexOutW : String := "/data/dalvik-cache/arm/a@b.apk@classes.dex"

/-- `dexopt` environment where every syscall succeeds and the compiler
child succeeds. -/
def dexEnvOk : DexoptEnv :=
  { profilePairs := 0, oatDirValid := true, props := fun _ => "",
    openOutOk := true, fchmodOk := true, fchownOk := true, swapOpenOk := true,
    childStatus := 0, now := 77 }

/-- `dexopt` environment whose `fchown` of the output fails: a
non-forked -1 return taken after the stale output was unlinked. -/
def dexEnvChownFail : DexoptEnv :=
  { profilePairs := 0, oatDirValid := true, props := fun _ => "",
    openOutOk := true, fchmodOk := true, fchownOk := false, swapOpenOk := true,
    childStatus := 0, now := 77 }

/-- Filesystem holding only the input APK. -/
def dexFsIn : FS :=
  fun q => if q = "/a/b.apk" then some ⟨0o644, 0, 0, 5, 9⟩ else none

/-- Filesystem holding only a stale previous output, no input APK. -/
def dexFsStale : FS :=
  fun q => if q = dexOutW then some ⟨0o644, 1000, 42, 1, 2⟩ else none

/-- The argv produced for `propsVold` (restricted boot). -/
def dexArgvVold : List String :=
  ["/system/bin/dex2oat", "--zip-fd=1", "--zip-location=in", "--oat-fd=2",
   "--oat-location=out", "--instruction-set=arm", "--compiler-filter=verify-none",
   "--runtime-arg", "-Xnorelocate"]

/-- The argv produced for `propsJit` (JIT property set, USEJIT flag
clear, filter property present). -/
def dexArgvJit : List String :=
  ["/system/bin/dex2oat", "--zip-fd=1", "--zip-location=in", "--oat-fd=2",
   "--oat-location=out", "--instruction-set=arm", "--compiler-filter=verify-at-runtime"]

/-- Property store with `vold.decrypt` indicating a restricted boot. -/
def propsVold : Props :=
  fun k => if k = "vold.decrypt" then "1" else ""

/-- Property store with `debug.usejit` set and a compiler-filter
property that the claim expects to win. -/
def propsJit : Props :=
  fun k =>
    if k = "debug.usejit" then "true"
    else if k = "dalvik.vm.dex2oat-filter" then "speed" else ""

/-- `free_cache` environment for the witness of the root
characterization: one secondary user `10`, one media user `0` with the
`Android`/`data` subdirectories present. -/
def fcEnvW : FreeCacheEnv :=
  { availBefore := 0, availAfter := 99,
    dataEntries := some [⟨"10", true⟩],
    mediaEntries := some [⟨"0", true⟩],
    hasSubdir := fun _ _ => true }

/-- `free_cache` environment with a non-numeric secondary-user entry
and a media entry whose name merely starts with a digit. -/
def fcEnvC : FreeCacheEnv :=
  { availBefore := 0, availAfter := 99,
    dataEntries := some [⟨"foo", true⟩],
    mediaEntries := some [⟨"1abc", true⟩],
    hasSubdir := fun _ _ => true }

/-- `free_cache` environment with a dot-named secondary-user
directory. -/
def fcEnvH : FreeCacheEnv :=
  { availBefore := 0, availAfter := 99,
    dataEntries := some [⟨".hidden", true⟩],
    mediaEntries := none,
    hasSubdir := fun _ _ => false }

/-- Concrete `move_complete_app` arguments: move `com.p` from internal
storage to the adopted volume `x`. -/
def mvArgsW : MoveArgs :=
  { fromUuid := none, toUuid := some "x", packageName := "com.p",
    dataAppName := "com.p-1", seinfo := "s" }

/-- Move environment with one user whose per-user `cp` fails (every
other helper succeeds): the call reaches `create_app_data` for the
destination, then jumps to the rollback. -/
def mvEnvW : MoveEnv :=
  { users := [0],
    cpOk := fun s => s != "/data/user/0/com.p",
    restoreconRecOk := fun _ => true,
    prepareDirOk := fun _ => true,
    appData := ⟨fun _ => true, fun _ => true⟩,
    restorecon := ⟨fun _ => true⟩,
    srcExists := fun _ => true }

end Installd

namespace Installd

/-!
# Theorems

General-purpose helper lemmas first, then one theorem (with witness or
counterexample) per claim.
-/

theorem data_append (a b : String) : (a ++ b).data = a.data ++ b.data := rfl

theorem mk_append (a b : List Char) : String.mk a ++ String.mk b = String.mk (a ++ b) := rfl

theorem mk_data (s : String) : String.mk s.data = s := rfl

theorem take_append_le {α : Type} (k : Nat) (a b : List α) (h : k ≤ a.length) :
    (a ++ b).take k = a.take k := by
  induction a generalizing k with
  | nil =>
    have : k = 0 := Nat.le_zero.mp (by simpa using h)
    subst this; simp
  | cons x xs ih =>
    cases k with
    | zero => simp
    | succ n =>
      simp only [List.cons_append, List.take_succ_cons]
      rw [ih n (by simpa using h)]

theorem append_ne_append_of_take (p q x y : String) (k : Nat)
    (hp : k ≤ p.data.length) (hq : k ≤ q.data.length)
    (h : p.data.take k ≠ q.data.take k) : p ++ x ≠ q ++ y := by
  intro he
  apply h
  have hd : p.data ++ x.data = q.data ++ y.data := by
    have h2 := congrArg String.data he
    simpa [data_append] using h2
  have h3 := congrArg (List.take k) hd
  rwa [take_append_le k _ _ hp, take_append_le k _ _ hq] at h3

theorem append_ne_concrete_of_take (p x q : String) (k : Nat)
    (hp : k ≤ p.data.length) (hq : k ≤ q.data.length)
    (h : p.data.take k ≠ q.data.take k) : p ++ x ≠ q := by
  intro he
  apply h
  have hd : p.data ++ x.data = q.data := by
    have h2 := congrArg String.data he
    simpa [data_append] using h2
  have h3 := congrArg (List.take k) hd
  rwa [take_append_le k _ _ hp] at h3

theorem mem_ite_nil {α : Type} {c : Prop} [Decidable c] (x : α) (l : List α) :
    (x ∈ (if c then l else [])) ↔ c ∧ x ∈ l := by
  split
  · next h => simp [h]
  · next h => simp [h]

theorem map_flattenChar_self (l : List Char) (h : '/' ∉ l) : l.map flattenChar = l := by
  induction l with
  | nil => rfl
  | cons c cs ih =>
    have hc : c ≠ '/' := fun hcc => h (hcc ▸ List.mem_cons_self c cs)
    simp only [List.map_cons, List.cons.injEq]
    exact ⟨by simp [flattenChar, hc], ih (fun hm => h (List.mem_cons_of_mem _ hm))⟩

theorem FS.set_self (fs : FS) (p : String) (m : FileMeta) : FS.set fs p m p = some m := by
  simp [FS.set]

theorem FS.set_ne (fs : FS) (p : String) (m : FileMeta) (q : String) (h : q ≠ p) :
    FS.set fs p m q = fs q := by
  simp [FS.set, h]

theorem FS.del_self (fs : FS) (p : String) : FS.del fs p p = none := by
  simp [FS.del]

theorem FS.del_ne (fs : FS) (p q : String) (h : q ≠ p) : FS.del fs p q = fs q := by
  simp [FS.del, h]

theorem swap_name_ne (s : String) : s ++ ".swap" ≠ s := by
  intro h
  have h2 := congrArg String.length h
  rw [String.length_append] at h2
  have h5 : (".swap" : String).length = 5 := rfl
  omega

/-- Claim C1: every `dexopt` call that proceeds to fork a compiler
child and returns 0 leaves the derived OAT output in place, with mode
0644 when the PUBLIC flag is set and 0640 otherwise, owner
`(AID_SYSTEM, app_uid)`, and atime/mtime equal to those of the selected
input file. -/
theorem dexopt_success_matches_claim (a : DexoptArgs) (env : DexoptEnv) (fs : FS)
    (outPath inputFile : String) (m : FileMeta)
    (hout : dexoptOutPath a env = some outPath)
    (hin : dexoptInputFile a outPath = some inputFile)
    (hm : fs inputFile = some m)
    (hret : (dexopt a env fs).ret = 0)
    (hfork : (dexopt a env fs).forked = true) :
    (dexopt a env fs).fs outPath =
      some ⟨if a.flags.isPublic then 0o644 else 0o640, AID_SYSTEM, a.uid,
        m.atime, m.mtime⟩ := by
  by_cases h1 : a.useProfiles ∧ env.profilePairs = 0
  · simp only [dexopt, if_pos h1] at hfork
    exact absurd hfork (by decide)
  · by_cases h2 : PKG_PATH_MAX - 8 ≤ a.apkPath.length
    · simp only [dexopt, if_neg h1, if_pos h2] at hfork
      exact absurd hfork (by decide)
    · have h2b : ¬ PKG_PATH_MAX ≤ a.apkPath.length + 8 := fun hx => h2 (by omega)
      by_cases ho : env.openOutOk
      · by_cases hcm : env.fchmodOk
        · by_cases hcw : env.fchownOk
          · by_cases h3 : env.childStatus = 0
            · have hne : outPath ++ ".swap" ≠ outPath := swap_name_ne outPath
              have hne2 : outPath ≠ outPath ++ ".swap" := hne.symm
              by_cases hswap : ShouldUseSwapFileForDexopt kAlwaysProvideSwapFile
                  kDefaultProvideSwapFile env.props
              · by_cases hlen : outPath.length + 6 ≤ PKG_PATH_MAX
                · by_cases hso : env.swapOpenOk
                  · simp [dexopt, if_neg h1, if_neg h2, h2b, hout, hin, hm, ho, hcm, hcw, h3,
                      if_pos hswap, if_pos hlen, hso, FS.setTimes, FS.set, FS.del,
                      hne, hne2]
                  · simp [dexopt, if_neg h1, if_neg h2, h2b, hout, hin, hm, ho, hcm, hcw, h3,
                      if_pos hswap, if_pos hlen, hso, FS.setTimes, FS.set, FS.del,
                      hne, hne2]
                · simp [dexopt, if_neg h1, if_neg h2, h2b, hout, hin, hm, ho, hcm, hcw, h3,
                    if_pos hswap, if_neg hlen, FS.setTimes, FS.set, FS.del, hne, hne2]
              · simp [dexopt, if_neg h1, if_neg h2, h2b, hout, hin, hm, ho, hcm, hcw, h3,
                  if_neg hswap, FS.setTimes, FS.set, FS.del, hne, hne2]
            · simp [dexopt, if_neg h1, if_neg h2, h2b, hout, hin, hm, ho, hcm, hcw, h3] at hret
          · simp [dexopt, if_neg h1, if_neg h2, h2b, hout, hin, hm, ho, hcm, hcw] at hret
        · simp [dexopt, if_neg h1, if_neg h2, h2b, hout, hin, hm, ho, hcm] at hret
      · simp [dexopt, if_neg h1, if_neg h2, h2b, hout, hin, hm, ho] at hret

/-- Witness for C1: a concrete successful dex2oat run; the output
carries mode 0640 (PUBLIC unset), owner `(AID_SYSTEM, 42)` and the
input's times `(5, 9)`. -/
theorem dexopt_success_matches_claim_witness :
    dexoptOutPath dexArgsW dexEnvOk = some dexOutW ∧
    dexoptInputFile dexArgsW dexOutW = some "/a/b.apk" ∧
    dexFsIn "/a/b.apk" = some ⟨0o644, 0, 0, 5, 9⟩ ∧
    (dexopt dexArgsW dexEnvOk dexFsIn).ret = 0 ∧
    (dexopt dexArgsW dexEnvOk dexFsIn).forked = true ∧
    (dexopt dexArgsW dexEnvOk dexFsIn).fs dexOutW =
      some ⟨0o640, AID_SYSTEM, 42, 5, 9⟩ := by
  refine ⟨by decide, by decide, by decide, by decide, by decide, ?_⟩
  have h := dexopt_success_matches_claim dexArgsW dexEnvOk dexFsIn dexOutW "/a/b.apk"
    ⟨0o644, 0, 0, 5, 9⟩ (by decide) (by decide) (by decide) (by decide) (by decide)
  simpa [dexArgsW] using h

/-- Counterexample to C2 as stated: a `dexopt` call that fails before
reaching the output-unlink step (here: the input file cannot be opened)
returns -1 while a stale file at the derived output path still exists
on return. -/
theorem dexopt_stale_output_persists_on_failure :
    dexoptOutPath dexArgsW dexEnvOk = some dexOutW ∧
    (dexopt dexArgsW dexEnvOk dexFsStale).ret = -1 ∧
    (dexopt dexArgsW dexEnvOk dexFsStale).fs dexOutW = some ⟨0o644, 1000, 42, 1, 2⟩ :=
  ⟨by decide, by decide, by decide⟩

/-- Claim C2 (amended): a `dexopt` call that returns -1 before
reaching the output-unlink step — overlong apk path, output-path or
odex-path derivation failure, or an input that cannot be opened —
leaves the filesystem unchanged, so a pre-existing stale output
persists; a call that returns -1 after reaching it — the
exclusive-create, `fchmod` or `fchown` of the output failing, or the
compiler child failing — leaves the derived output path non-existent
(any stale output was unlinked) and the `<out>.swap` path either
non-existent or exactly the untouched pre-call entry. -/
theorem dexopt_failure_matches_amended (a : DexoptArgs) (env : DexoptEnv) (fs : FS)
    (outPath : String)
    (hout : dexoptOutPath a env = some outPath)
    (hret : (dexopt a env fs).ret = -1) :
    (PKG_PATH_MAX - 8 ≤ a.apkPath.length → (dexopt a env fs).fs = fs) ∧
    (dexoptInputFile a outPath = none → (dexopt a env fs).fs = fs) ∧
    (∀ inputFile, dexoptInputFile a outPath = some inputFile → fs inputFile = none →
      (dexopt a env fs).fs = fs) ∧
    (∀ inputFile m, ¬ PKG_PATH_MAX - 8 ≤ a.apkPath.length →
      dexoptInputFile a outPath = some inputFile → fs inputFile = some m →
      (dexopt a env fs).fs outPath = none ∧
      ((dexopt a env fs).fs (outPath ++ ".swap") = none ∨
       (dexopt a env fs).fs (outPath ++ ".swap") = fs (outPath ++ ".swap"))) := by
  have h1 : ¬ (a.useProfiles ∧ env.profilePairs = 0) := by
    intro h1
    simp only [dexopt, if_pos h1] at hret
    exact absurd hret (by decide)
  refine ⟨?_, ?_, ?_, ?_⟩
  · intro hlen
    simp only [dexopt, if_neg h1, if_pos hlen]
  · intro hinn
    by_cases h2 : PKG_PATH_MAX - 8 ≤ a.apkPath.length
    · simp only [dexopt, if_neg h1, if_pos h2]
    · simp only [dexopt, if_neg h1, if_neg h2, hout, hinn]
  · intro inputFile hin hmn
    by_cases h2 : PKG_PATH_MAX - 8 ≤ a.apkPath.length
    · simp only [dexopt, if_neg h1, if_pos h2]
    · simp only [dexopt, if_neg h1, if_neg h2, hout, hin, hmn]
  · intro inputFile m hlen hin hm
    have hlenb : ¬ PKG_PATH_MAX ≤ a.apkPath.length + 8 := fun hx => hlen (by omega)
    have hne : outPath ++ ".swap" ≠ outPath := swap_name_ne outPath
    have hne2 : outPath ≠ outPath ++ ".swap" := hne.symm
    by_cases ho : env.openOutOk
    · by_cases hcm : env.fchmodOk
      · by_cases hcw : env.fchownOk
        · by_cases h3 : env.childStatus = 0
          · simp [dexopt, if_neg h1, if_neg hlen, hlenb, hout, hin, hm, ho, hcm, hcw, h3] at hret
          · constructor
            · simp [dexopt, if_neg h1, if_neg hlen, hlenb, hout, hin, hm, ho, hcm, hcw, h3,
                FS.del]
            · by_cases hswap : ShouldUseSwapFileForDexopt kAlwaysProvideSwapFile
                  kDefaultProvideSwapFile env.props
              · by_cases hlen2 : outPath.length + 6 ≤ PKG_PATH_MAX
                · by_cases hso : env.swapOpenOk
                  · left
                    simp [dexopt, if_neg h1, if_neg hlen, hlenb, hout, hin, hm, ho, hcm, hcw,
                      h3, if_pos hswap, if_pos hlen2, hso, FS.set, FS.del, hne, hne2]
                  · left
                    simp [dexopt, if_neg h1, if_neg hlen, hlenb, hout, hin, hm, ho, hcm, hcw,
                      h3, if_pos hswap, if_pos hlen2, hso, FS.set, FS.del, hne, hne2]
                · right
                  simp [dexopt, if_neg h1, if_neg hlen, hlenb, hout, hin, hm, ho, hcm, hcw,
                    h3, if_pos hswap, if_neg hlen2, FS.set, FS.del, hne, hne2]
              · right
                simp [dexopt, if_neg h1, if_neg hlen, hlenb, hout, hin, hm, ho, hcm, hcw,
                  h3, if_neg hswap, FS.set, FS.del, hne, hne2]
        · constructor
          · simp [dexopt, if_neg h1, if_neg hlen, hlenb, hout, hin, hm, ho, hcm, hcw, FS.del]
          · right
            simp [dexopt, if_neg h1, if_neg hlen, hlenb, hout, hin, hm, ho, hcm, hcw,
              FS.set, FS.del, hne, hne2]
      · constructor
        · simp [dexopt, if_neg h1, if_neg hlen, hlenb, hout, hin, hm, ho, hcm, FS.del]
        · right
          simp [dexopt, if_neg h1, if_neg hlen, hlenb, hout, hin, hm, ho, hcm,
            FS.set, FS.del, hne, hne2]
    · constructor
      · simp [dexopt, if_neg h1, if_neg hlen, hlenb, hout, hin, hm, ho, FS.del]
      · right
        simp [dexopt, if_neg h1, if_neg hlen, hlenb, hout, hin, hm, ho, FS.del, hne, hne2]

/-- Witness for the amended C2: a concrete failure of the output
`fchown` — a non-forked -1 return after the output-unlink step — leaves
the output path non-existent and the swap path untouched. -/
theorem dexopt_failure_matches_amended_witness :
    dexoptOutPath dexArgsW dexEnvChownFail = some dexOutW ∧
    (dexopt dexArgsW dexEnvChownFail dexFsIn).ret = -1 ∧
    dexoptInputFile dexArgsW dexOutW = some "/a/b.apk" ∧
    dexFsIn "/a/b.apk" = some ⟨0o644, 0, 0, 5, 9⟩ ∧
    ((dexopt dexArgsW dexEnvChownFail dexFsIn).fs dexOutW = none ∧
      ((dexopt dexArgsW dexEnvChownFail dexFsIn).fs (dexOutW ++ ".swap") = none ∨
       (dexopt dexArgsW dexEnvChownFail dexFsIn).fs (dexOutW ++ ".swap") =
         dexFsIn (dexOutW ++ ".swap"))) :=
  ⟨by decide, by decide, by decide, by decide,
    (dexopt_failure_matches_amended dexArgsW dexEnvChownFail dexFsIn dexOutW
      (by decide) (by decide)).2.2.2 "/a/b.apk" ⟨0o644, 0, 0, 5, 9⟩
      (by decide) (by decide) (by decide)⟩

theorem prepareAppDirClass_writes (p : String) (env : CreateAppDataEnv) :
    ∀ e ∈ (prepareAppDirClass p env).2, e.writeRoot = p := by
  intro e he
  unfold prepareAppDirClass at he
  split at he
  · have h := List.mem_singleton.mp he
    subst h; rfl
  · split at he
    · rcases List.mem_cons.mp he with h | h
      · subst h; rfl
      · have h2 := List.mem_singleton.mp h
        subst h2; rfl
    · rcases List.mem_cons.mp he with h | h
      · subst h; rfl
      · have h2 := List.mem_singleton.mp h
        subst h2; rfl

theorem mem_cons_append_singleton_append {x y e : MvEffect} {A B : List MvEffect}
    (he : e ∈ x :: A ++ [y] ++ B) : e = x ∨ e ∈ A ∨ e = y ∨ e ∈ B := by
  rcases List.mem_cons.mp he with h | h
  · exact Or.inl h
  · rcases List.mem_append.mp h with h2 | h2
    · rcases List.mem_append.mp h2 with h3 | h3
      · exact Or.inr (Or.inl h3)
      · exact Or.inr (Or.inr (Or.inl (List.mem_singleton.mp h3)))
    · exact Or.inr (Or.inr (Or.inr h2))

theorem create_app_data_writes (uuid : Option String) (pkg : String) (user : Nat)
    (ce de : Bool) (env : CreateAppDataEnv) :
    ∀ e ∈ (create_app_data uuid pkg user ce de env).2,
      e.writeRoot = create_data_user_package_path uuid user pkg ∨
      e.writeRoot = create_data_user_de_package_path uuid user pkg := by
  intro e he
  unfold create_app_data at he
  cases ce with
  | true =>
    simp only [if_true] at he
    by_cases hr : (prepareAppDirClass (create_data_user_package_path uuid user pkg) env).1 ≠ 0
    · simp only [if_pos hr] at he
      exact Or.inl (prepareAppDirClass_writes _ env e he)
    · simp only [if_neg hr] at he
      cases de with
      | true =>
        simp only [if_true] at he
        rcases List.mem_append.mp he with h | h
        · exact Or.inl (prepareAppDirClass_writes _ env e h)
        · exact Or.inr (prepareAppDirClass_writes _ env e h)
      | false =>
        simp only [Bool.false_eq_true, if_false] at he
        exact Or.inl (prepareAppDirClass_writes _ env e he)
  | false =>
    simp only [Bool.false_eq_true, if_false] at he
    cases de with
    | true =>
      simp only [if_true] at he
      exact Or.inr (prepareAppDirClass_writes _ env e he)
    | false =>
      simp only [Bool.false_eq_true, if_false, List.not_mem_nil] at he

theorem restorecon_app_data_writes (uuid : Option String) (pkg seinfo : String)
    (user : Nat) (env : RestoreconEnv) :
    ∀ e ∈ (restorecon_app_data uuid (some pkg) (some seinfo) user true true env).2,
      e.writeRoot = create_data_user_package_path uuid user pkg ∨
      e.writeRoot = create_data_user_de_package_path uuid user pkg := by
  intro e he
  simp only [restorecon_app_data, if_true, List.mem_append, List.mem_singleton] at he
  rcases he with rfl | rfl
  · exact Or.inl rfl
  · exact Or.inr rfl

theorem moveUserStep_writes (a : MoveArgs) (env : MoveEnv) (u : Nat) :
    ∀ e ∈ (moveUserStep a env u).2,
      e.writeRoot = create_data_user_path a.toUuid u ∨
      e.writeRoot = create_data_user_package_path a.toUuid u a.packageName ∨
      e.writeRoot = create_data_user_de_package_path a.toUuid u a.packageName := by
  intro e he
  simp only [moveUserStep] at he
  split at he
  · exact absurd he (List.not_mem_nil e)
  · split at he
    · have h := List.mem_singleton.mp he
      subst h; exact Or.inl rfl
    · split at he
      · rcases List.mem_cons.mp he with h | h
        · subst h; exact Or.inl rfl
        · rcases create_app_data_writes _ _ _ _ _ _ e h with h2 | h2
          · exact Or.inr (Or.inl h2)
          · exact Or.inr (Or.inr h2)
      · split at he
        · rcases List.mem_cons.mp he with h | h
          · subst h; exact Or.inl rfl
          · rcases List.mem_append.mp h with h2 | h2
            · rcases create_app_data_writes _ _ _ _ _ _ e h2 with h3 | h3
              · exact Or.inr (Or.inl h3)
              · exact Or.inr (Or.inr h3)
            · have h3 := List.mem_singleton.mp h2
              subst h3; exact Or.inl rfl
        · split at he
          · rcases mem_cons_append_singleton_append he with h | h | h | h
            · subst h; exact Or.inl rfl
            · rcases create_app_data_writes _ _ _ _ _ _ e h with h2 | h2
              · exact Or.inr (Or.inl h2)
              · exact Or.inr (Or.inr h2)
            · subst h; exact Or.inl rfl
            · rcases restorecon_app_data_writes _ _ _ _ _ e h with h2 | h2
              · exact Or.inr (Or.inl h2)
              · exact Or.inr (Or.inr h2)
          · rcases mem_cons_append_singleton_append he with h | h | h | h
            · subst h; exact Or.inl rfl
            · rcases create_app_data_writes _ _ _ _ _ _ e h with h2 | h2
              · exact Or.inr (Or.inl h2)
              · exact Or.inr (Or.inr h2)
            · subst h; exact Or.inl rfl
            · rcases restorecon_app_data_writes _ _ _ _ _ e h with h2 | h2
              · exact Or.inr (Or.inl h2)
              · exact Or.inr (Or.inr h2)

theorem moveUserLoop_writes (a : MoveArgs) (env : MoveEnv) :
    ∀ l : List Nat, ∀ e ∈ (moveUserLoop a env l).2, ∃ u ∈ l,
      e.writeRoot = create_data_user_path a.toUuid u ∨
      e.writeRoot = create_data_user_package_path a.toUuid u a.packageName ∨
      e.writeRoot = create_data_user_de_package_path a.toUuid u a.packageName := by
  intro l
  induction l with
  | nil => intro e he; simp [moveUserLoop] at he
  | cons u rest ih =>
    intro e he
    unfold moveUserLoop at he
    by_cases hs : (moveUserStep a env u).1
    · simp only [if_pos hs, List.mem_append] at he
      rcases he with h | h
      · exact ⟨u, List.mem_cons_self u rest, moveUserStep_writes a env u e h⟩
      · rcases ih e h with ⟨v, hv, hw⟩
        exact ⟨v, List.mem_cons_of_mem u hv, hw⟩
    · simp only [if_neg hs] at he
      exact ⟨u, List.mem_cons_self u rest, moveUserStep_writes a env u e he⟩

theorem moveRollback_writes (a : MoveArgs) (users : List Nat) :
    ∀ e ∈ moveRollback a users,
      e.writeRoot = create_data_app_package_path a.toUuid a.dataAppName ∨
      ∃ u ∈ users,
        e.writeRoot = create_data_user_package_path a.toUuid u a.packageName := by
  intro e he
  simp only [moveRollback, List.mem_cons, List.mem_map] at he
  rcases he with rfl | ⟨u, hu, rfl⟩
  · exact Or.inl rfl
  · exact Or.inr ⟨u, hu, rfl⟩

theorem move_complete_app_writes (a : MoveArgs) (env : MoveEnv) :
    ∀ e ∈ (move_complete_app a env).2, e.writeRoot ∈ moveDestPaths a env.users := by
  intro e he
  have hmem : ∀ x : MvEffect,
      (x.writeRoot = create_data_app_path a.toUuid ∨
       x.writeRoot = create_data_app_package_path a.toUuid a.dataAppName ∨
       (∃ u ∈ env.users, x.writeRoot = create_data_user_path a.toUuid u) ∨
       (∃ u ∈ env.users,
         x.writeRoot = create_data_user_package_path a.toUuid u a.packageName) ∨
       (∃ u ∈ env.users,
         x.writeRoot = create_data_user_de_package_path a.toUuid u a.packageName)) →
      x.writeRoot ∈ moveDestPaths a env.users := by
    intro x hx
    simp only [moveDestPaths, List.mem_cons, List.mem_append, List.mem_map]
    rcases hx with h | h | ⟨u, hu, h⟩ | ⟨u, hu, h⟩ | ⟨u, hu, h⟩
    · exact Or.inl h
    · exact Or.inr (Or.inl h)
    · exact Or.inr (Or.inr (Or.inl (Or.inl ⟨u, hu, h.symm⟩)))
    · exact Or.inr (Or.inr (Or.inl (Or.inr ⟨u, hu, h.symm⟩)))
    · exact Or.inr (Or.inr (Or.inr ⟨u, hu, h.symm⟩))
  apply hmem
  have hroll : ∀ x ∈ moveRollback a env.users,
      x.writeRoot = create_data_app_path a.toUuid ∨
      x.writeRoot = create_data_app_package_path a.toUuid a.dataAppName ∨
      (∃ u ∈ env.users, x.writeRoot = create_data_user_path a.toUuid u) ∨
      (∃ u ∈ env.users,
        x.writeRoot = create_data_user_package_path a.toUuid u a.packageName) ∨
      (∃ u ∈ env.users,
        x.writeRoot = create_data_user_de_package_path a.toUuid u a.packageName) := by
    intro x hx
    rcases moveRollback_writes a env.users x hx with hw | ⟨u, hu, hw⟩
    · exact Or.inr (Or.inl hw)
    · exact Or.inr (Or.inr (Or.inr (Or.inl ⟨u, hu, hw⟩)))
  have hloop : ∀ x ∈ (moveUserLoop a env env.users).2,
      x.writeRoot = create_data_app_path a.toUuid ∨
      x.writeRoot = create_data_app_package_path a.toUuid a.dataAppName ∨
      (∃ u ∈ env.users, x.writeRoot = create_data_user_path a.toUuid u) ∨
      (∃ u ∈ env.users,
        x.writeRoot = create_data_user_package_path a.toUuid u a.packageName) ∨
      (∃ u ∈ env.users,
        x.writeRoot = create_data_user_de_package_path a.toUuid u a.packageName) := by
    intro x hx
    rcases moveUserLoop_writes a env env.users x hx with ⟨u, hu, hw | hw | hw⟩
    · exact Or.inr (Or.inr (Or.inl ⟨u, hu, hw⟩))
    · exact Or.inr (Or.inr (Or.inr (Or.inl ⟨u, hu, hw⟩)))
    · exact Or.inr (Or.inr (Or.inr (Or.inr ⟨u, hu, hw⟩)))
  simp only [move_complete_app] at he
  split at he
  · rcases List.mem_append.mp he with h | h
    · have h2 := List.mem_singleton.mp h
      subst h2; exact Or.inl rfl
    · exact hroll e h
  · split at he
    · rcases List.mem_append.mp he with h | h
      · rcases List.mem_cons.mp h with h2 | h2
        · subst h2; exact Or.inl rfl
        · have h3 := List.mem_singleton.mp h2
          subst h3; exact Or.inr (Or.inl rfl)
      · exact hroll e h
    · split at he
      · rcases List.mem_cons.mp he with h | h
        · subst h; exact Or.inl rfl
        · rcases List.mem_cons.mp h with h2 | h2
          · subst h2; exact Or.inr (Or.inl rfl)
          · exact hloop e h2
      · rcases List.mem_append.mp he with h | h
        · rcases List.mem_cons.mp h with h2 | h2
          · subst h2; exact Or.inl rfl
          · rcases List.mem_cons.mp h2 with h3 | h3
            · subst h3; exact Or.inr (Or.inl rfl)
            · exact hloop e h3
        · exact hroll e h

/-- Claim C3 (amended): every filesystem write of `move_complete_app`
targets a destination-volume path (so, when the destination paths are
disjoint from the source paths, the source app directory and per-user
source package directories are never created, modified or deleted); and
every call returning -1 ends with the rollback: a best-effort recursive
delete of the destination app directory and of each per-user
destination CE package directory.  The per-user DE package directories
created by `create_app_data` are not part of the rollback. -/
theorem move_complete_app_matches_amended (a : MoveArgs) (env : MoveEnv)
    (hdisj : ∀ p ∈ moveDestPaths a env.users, p ∉ moveSrcPaths a env.users) :
    (∀ e ∈ (move_complete_app a env).2, e.writeRoot ∉ moveSrcPaths a env.users) ∧
    ((move_complete_app a env).1 = -1 →
      ∃ t, (move_complete_app a env).2 = t ++ moveRollback a env.users) := by
  constructor
  · intro e he
    exact hdisj _ (move_complete_app_writes a env e he)
  · intro hret
    unfold move_complete_app at hret ⊢
    by_cases h1 : env.cpOk (create_data_app_package_path a.fromUuid a.dataAppName)
    · simp only [h1, not_true_eq_false, if_false] at hret ⊢
      by_cases h2 : env.restoreconRecOk (create_data_app_package_path a.toUuid a.dataAppName)
      · simp only [h2, not_true_eq_false, if_false] at hret ⊢
        by_cases h3 : (moveUserLoop a env env.users).1
        · simp only [if_pos h3] at hret
          exact absurd hret (by decide)
        · simp only [if_neg h3]
          exact ⟨_, rfl⟩
      · simp only [h2, not_false_eq_true, if_true]
        exact ⟨_, rfl⟩
    · simp only [h1, not_false_eq_true, if_true]
      exact ⟨_, rfl⟩

/-- Witness for the amended C3 at a failing concrete move: no write
targets a source path and the trace ends with the rollback. -/
theorem move_complete_app_matches_amended_witness :
    (move_complete_app mvArgsW mvEnvW).1 = -1 ∧
    (∀ e ∈ (move_complete_app mvArgsW mvEnvW).2,
      e.writeRoot ∉ moveSrcPaths mvArgsW mvEnvW.users) ∧
    (∃ t, (move_complete_app mvArgsW mvEnvW).2 = t ++ moveRollback mvArgsW mvEnvW.users) := by
  have h := move_complete_app_matches_amended mvArgsW mvEnvW (by decide)
  exact ⟨by decide, h.1, h.2 (by decide)⟩

/-- Counterexample to C3 as stated: in a failing move, the per-user
destination DE package directory created by `create_app_data` is not
deleted by the rollback (only the app directory and the CE package
directories are). -/
theorem move_complete_app_de_dir_not_rolled_back :
    (move_complete_app mvArgsW mvEnvW).1 = -1 ∧
    MvEffect.prepareDirStrict "/mnt/expand/x/user_de/0/com.p"
      ∈ (move_complete_app mvArgsW mvEnvW).2 ∧
    MvEffect.deleteTree "/mnt/expand/x/user_de/0/com.p"
      ∉ (move_complete_app mvArgsW mvEnvW).2 :=
  ⟨by decide, by decide, by decide⟩

theorem not_filter_mem_profileFdArgs (ps rs : List Nat) (v : String) :
    ("--compiler-filter=" ++ v) ∉ profileFdArgs ps rs := by
  induction ps generalizing rs with
  | nil => intro h; simp [profileFdArgs] at h
  | cons p ps ih =>
    cases rs with
    | nil => intro h; simp [profileFdArgs] at h
    | cons r rs =>
      intro h
      rcases List.mem_cons.mp h with h2 | h2
      · exact append_ne_append_of_take _ _ _ _ 4 (by decide) (by decide) (by decide) h2
      · rcases List.mem_cons.mp h2 with h3 | h3
        · exact append_ne_append_of_take _ _ _ _ 4 (by decide) (by decide) (by decide) h3
        · exact ih rs h3

/-- Claim C4 (amended): in the dex2oat argument vector the compiler
filter is chosen by first match: a restricted `vold.decrypt` boot
yields `verify-none` plus the `--runtime-arg -Xnorelocate` pair; else
SAFEMODE yields `interpret-only`; else the USEJIT flag *or* the
`debug.usejit` property yields `verify-at-runtime`; else a present
`dalvik.vm.dex2oat-filter` property supplies the filter; else no
`--compiler-filter` argument is emitted (tokens passed through verbatim
from `dalvik.vm.dex2oat-flags` aside). -/
theorem run_dex2oat_filter_precedence
    (zipFd oatFd : Nat) (inName outName : String) (swapFd : Option Nat) (isa : String)
    (vmSafeMode debuggable postBoot useJit : Bool)
    (pfds rfds : List Nat) (props : Props) (l : List String)
    (hargv : run_dex2oat_argv zipFd oatFd inName outName swapFd isa
        vmSafeMode debuggable postBoot useJit pfds rfds props = some l) :
    (dex2oatSkipCompilation props = true →
      "--compiler-filter=verify-none" ∈ l ∧
      [RUNTIME_ARG, dex2oat_norelocation] <:+: l) ∧
    (dex2oatSkipCompilation props = false → vmSafeMode = true →
      "--compiler-filter=interpret-only" ∈ l) ∧
    (dex2oatSkipCompilation props = false → vmSafeMode = false →
      (useJit || check_boolean_property props "debug.usejit" false) = true →
      "--compiler-filter=verify-at-runtime" ∈ l) ∧
    (dex2oatSkipCompilation props = false → vmSafeMode = false →
      (useJit || check_boolean_property props "debug.usejit" false) = false →
      props "dalvik.vm.dex2oat-filter" ≠ "" →
      ("--compiler-filter=" ++ props "dalvik.vm.dex2oat-filter") ∈ l) ∧
    (dex2oatSkipCompilation props = false → vmSafeMode = false →
      (useJit || check_boolean_property props "debug.usejit" false) = false →
      props "dalvik.vm.dex2oat-filter" = "" →
      (∀ t ∈ splitTokens (props "dalvik.vm.dex2oat-flags"),
        ∀ v : String, t ≠ "--compiler-filter=" ++ v) →
      ∀ v : String, ("--compiler-filter=" ++ v) ∉ l) := by
  unfold run_dex2oat_argv at hargv
  split at hargv
  · exact Option.noConfusion hargv
  · split at hargv
    · exact Option.noConfusion hargv
    · simp only [Option.some.injEq] at hargv
      subst hargv
      refine ⟨?_, ?_, ?_, ?_, ?_⟩
      · intro hskip
        constructor
        · simp [dex2oatFilterChoice, hskip, List.mem_append]
        · simp only [dex2oatFilterChoice, hskip, if_true, if_false]
          exact List.infix_append _ _ _
      · intro hskip hsafe
        simp [dex2oatFilterChoice, hskip, hsafe, List.mem_append]
      · intro hskip hsafe hjit
        simp [dex2oatFilterChoice, hskip, hsafe, hjit, List.mem_append]
      · intro hskip hsafe hjit hfp
        simp [dex2oatFilterChoice, hskip, hsafe, hjit, hfp, List.mem_append]
      · intro hskip hsafe hjit hfp hflags v hv
        simp only [dex2oatFilterChoice, hskip, hsafe, hjit, hfp, Bool.false_eq_true,
          if_false, ne_eq, not_true_eq_false, List.append_nil, List.nil_append] at hv
        rcases List.mem_append.mp hv with hv | hv
        swap
        · exact not_filter_mem_profileFdArgs pfds rfds v hv
        rcases List.mem_append.mp hv with hv | hv
        swap
        · exact hflags _ hv v rfl
        rcases List.mem_append.mp hv with hv | hv
        swap
        · obtain ⟨_, hv⟩ := (mem_ite_nil _ _).mp hv
          have h2 := List.mem_singleton.mp hv
          exact append_ne_concrete_of_take _ _ _ 4 (by decide) (by decide) (by decide) h2
        rcases List.mem_append.mp hv with hv | hv
        swap
        · obtain ⟨_, hv⟩ := (mem_ite_nil _ _).mp hv
          have h2 := List.mem_singleton.mp hv
          exact append_ne_concrete_of_take _ _ _ 4 (by decide) (by decide) (by decide) h2
        rcases List.mem_append.mp hv with hv | hv
        swap
        · cases swapFd with
          | none => exact absurd hv (List.not_mem_nil _)
          | some fd =>
            have h2 := List.mem_singleton.mp hv
            exact append_ne_append_of_take _ _ _ _ 4 (by decide) (by decide) (by decide) h2
        rcases List.mem_append.mp hv with hv | hv
        swap
        · obtain ⟨_, hv⟩ := (mem_ite_nil _ _).mp hv
          have h2 := List.mem_singleton.mp hv
          exact append_ne_append_of_take _ _ _ _ 2 (by decide) (by decide) (by decide) h2
        rcases List.mem_append.mp hv with hv | hv
        swap
        · obtain ⟨_, hv⟩ := (mem_ite_nil _ _).mp hv
          rcases List.mem_cons.mp hv with h2 | h2
          · exact append_ne_concrete_of_take _ _ _ 4 (by decide) (by decide) (by decide) h2
          · have h3 := List.mem_singleton.mp h2
            exact append_ne_append_of_take _ _ _ _ 2 (by decide) (by decide) (by decide) h3
        rcases List.mem_append.mp hv with hv | hv
        swap
        · obtain ⟨_, hv⟩ := (mem_ite_nil _ _).mp hv
          rcases List.mem_cons.mp hv with h2 | h2
          · exact append_ne_concrete_of_take _ _ _ 4 (by decide) (by decide) (by decide) h2
          · have h3 := List.mem_singleton.mp h2
            exact append_ne_append_of_take _ _ _ _ 2 (by decide) (by decide) (by decide) h3
        rcases List.mem_append.mp hv with hv | hv
        swap
        · obtain ⟨_, hv⟩ := (mem_ite_nil _ _).mp hv
          have h2 := List.mem_singleton.mp hv
          exact append_ne_append_of_take _ _ _ _ 4 (by decide) (by decide) (by decide) h2
        rcases List.mem_append.mp hv with hv | hv
        swap
        · obtain ⟨_, hv⟩ := (mem_ite_nil _ _).mp hv
          have h2 := List.mem_singleton.mp hv
          exact append_ne_append_of_take _ _ _ _ 4 (by decide) (by decide) (by decide) h2
        rcases List.mem_cons.mp hv with h2 | hv
        · exact append_ne_concrete_of_take _ _ _ 1 (by decide) (by decide) (by decide) h2
        rcases List.mem_cons.mp hv with h2 | hv
        · exact append_ne_append_of_take _ _ _ _ 4 (by decide) (by decide) (by decide) h2
        rcases List.mem_cons.mp hv with h2 | hv
        · exact append_ne_append_of_take _ _ _ _ 4 (by decide) (by decide) (by decide) h2
        rcases List.mem_cons.mp hv with h2 | hv
        · exact append_ne_append_of_take _ _ _ _ 4 (by decide) (by decide) (by decide) h2
        rcases List.mem_cons.mp hv with h2 | hv
        · exact append_ne_append_of_take _ _ _ _ 4 (by decide) (by decide) (by decide) h2
        rcases List.mem_cons.mp hv with h2 | hv
        · exact append_ne_append_of_take _ _ _ _ 4 (by decide) (by decide) (by decide) h2
        exact absurd hv (List.not_mem_nil _)

/-- Witness for the amended C4: under a restricted `vold.decrypt` boot
the argv carries `--compiler-filter=verify-none` and the
`--runtime-arg -Xnorelocate` pair. -/
theorem run_dex2oat_filter_precedence_witness :
    run_dex2oat_argv 1 2 "in" "out" none "arm" false false true false [] [] propsVold =
      some dexArgvVold ∧
    "--compiler-filter=verify-none" ∈ dexArgvVold ∧
    (["--runtime-arg", "-Xnorelocate"] : List String) <:+: dexArgvVold := by
  have h := (run_dex2oat_filter_precedence 1 2 "in" "out" none "arm" false false true false
    [] [] propsVold dexArgvVold (by decide)).1 (by decide)
  exact ⟨by decide, h.1, h.2⟩

/-- Counterexample to C4 as stated: with the USEJIT flag clear but the
`debug.usejit` property true, the property-provided filter `speed` is
not used — `verify-at-runtime` is emitted instead. -/
theorem run_dex2oat_usejit_property_beats_filter_property :
    propsJit "dalvik.vm.dex2oat-filter" = "speed" ∧
    run_dex2oat_argv 1 2 "in" "out" none "arm" false false true false [] [] propsJit =
      some dexArgvJit ∧
    "--compiler-filter=speed" ∉ dexArgvJit :=
  ⟨by decide, by decide, by decide⟩

/-- Claim C5: dexopt uses a swap file exactly when the compile-time
always-override is set; else when the property
`dalvik.vm.dex2oat-swap` is present and equals `"true"` (present with
any other value means no swap); else, the property absent, when the
compile-time default says yes; else when `ro.config.low_ram` equals
`"true"`. -/
theorem shouldUseSwapFile_matches_claim (kA kD : Bool) (props : Props) :
    ShouldUseSwapFileForDexopt kA kD props =
      (if kA then true
       else if props "dalvik.vm.dex2oat-swap" ≠ "" then
         props "dalvik.vm.dex2oat-swap" == "true"
       else if kD then true
       else props "ro.config.low_ram" == "true") := by
  unfold ShouldUseSwapFileForDexopt check_boolean_property
  by_cases hA : kA
  · simp [hA]
  · simp only [if_neg hA]
    by_cases hp : props "dalvik.vm.dex2oat-swap" = ""
    · simp only [hp, ne_eq, not_true_eq_false, if_false, if_true, not_false_eq_true]
      by_cases hD : kD
      · simp [hD]
      · simp only [hD, if_false]
        by_cases hl : props "ro.config.low_ram" = ""
        · simp [hl]
        · by_cases ht : props "ro.config.low_ram" == "true"
          · simp [hl, ht]
          · simp [hl, ht, hD]
    · simp [hp]

theorem sweepAction_addRoot_iff (a : SweepAction) (r : String) :
    (match a with | .addRoot p => some p | _ => none) = some r ↔ a = .addRoot r := by
  cases a <;> simp

theorem mem_sweepRoots_map {α : Type} (f : α → SweepAction) (l : List α) (r : String) :
    r ∈ sweepRoots (l.map f) ↔ ∃ e ∈ l, f e = SweepAction.addRoot r := by
  unfold sweepRoots
  rw [List.mem_filterMap]
  constructor
  · rintro ⟨a, ha, hsome⟩
    rcases List.mem_map.mp ha with ⟨e, he, rfl⟩
    exact ⟨e, he, (sweepAction_addRoot_iff _ _).mp hsome⟩
  · rintro ⟨e, he, hf⟩
    exact ⟨f e, List.mem_map_of_mem f he, (sweepAction_addRoot_iff _ _).mpr hf⟩

theorem dataUserEntryAction_addRoot_iff (base : String) (e : DirEnt) (r : String) :
    dataUserEntryAction base e = .addRoot r ↔
      (e.isDir = true ∧ e.name ≠ "." ∧ e.name ≠ ".." ∧
        e.name.length + base.length < PATH_MAX - 1 ∧ r = base ++ e.name) := by
  unfold dataUserEntryAction
  cases hd : e.isDir
  · simp [hd]
  · by_cases h2 : e.name = "." ∨ e.name = ".."
    · rcases h2 with h | h <;> simp [hd, h]
    · obtain ⟨h2a, h2b⟩ := not_or.mp h2
      by_cases h3 : e.name.length + base.length < PATH_MAX - 1
      · simp [hd, h2a, h2b, h3, eq_comm]
      · simp [hd, h2a, h2b, h3]

theorem mediaEntryAction_addRoot_iff (f : String → String → Bool) (base : String)
    (e : DirEnt) (r : String) :
    mediaEntryAction f base e = .addRoot r ↔
      (e.isDir = true ∧ digitInitial e.name = true ∧
        e.name.length + base.length < PATH_MAX - 1 ∧
        f (base ++ e.name) "Android" = true ∧
        f (base ++ e.name ++ "/" ++ "Android") "data" = true ∧
        r = base ++ e.name ++ "/" ++ "Android" ++ "/" ++ "data") := by
  unfold mediaEntryAction lookup_media_dir
  cases hd : e.isDir
  · simp [hd]
  · cases hg : digitInitial e.name
    · simp [hd, hg]
    · by_cases h3 : e.name.length + base.length < PATH_MAX - 1
      · cases hA : f (base ++ e.name) "Android"
        · simp [hd, hg, h3, hA]
        · cases hD : f (base ++ e.name ++ "/" ++ "Android") "data"
          · simp [hd, hg, h3, hA, hD]
          · simp [hd, hg, h3, hA, hD, eq_comm]
      · simp [hd, hg, h3]

theorem dataUserEntryAction_skip_iff (base : String) (e : DirEnt) :
    dataUserEntryAction base e = .skip ↔
      (e.isDir = false ∨ e.name = "." ∨ e.name = "..") := by
  unfold dataUserEntryAction
  cases hd : e.isDir
  · simp [hd]
  · by_cases h2 : e.name = "." ∨ e.name = ".."
    · rcases h2 with h | h <;> simp [hd, h]
    · obtain ⟨h2a, h2b⟩ := not_or.mp h2
      by_cases h3 : e.name.length + base.length < PATH_MAX - 1
      · simp [hd, h2a, h2b, h3]
      · simp [hd, h2a, h2b, h3]

theorem dataUserEntryAction_warn_iff (base : String) (e : DirEnt) :
    dataUserEntryAction base e = .warn ↔
      (e.isDir = true ∧ e.name ≠ "." ∧ e.name ≠ ".." ∧
        ¬ (e.name.length + base.length < PATH_MAX - 1)) := by
  unfold dataUserEntryAction
  cases hd : e.isDir
  · simp [hd]
  · by_cases h2 : e.name = "." ∨ e.name = ".."
    · rcases h2 with h | h <;> simp [hd, h]
    · obtain ⟨h2a, h2b⟩ := not_or.mp h2
      by_cases h3 : e.name.length + base.length < PATH_MAX - 1
      · simp [hd, h2a, h2b, h3]
      · simp [hd, h2a, h2b, h3]

theorem digitInitial_dot (s : String) (h : s.data.head? = some '.') :
    digitInitial s = false := by
  unfold digitInitial
  rw [h]
  decide

theorem mediaEntryAction_warn_iff (f : String → String → Bool) (base : String)
    (e : DirEnt) :
    mediaEntryAction f base e = .warn ↔
      (e.isDir = true ∧ digitInitial e.name = true ∧
        ¬ (e.name.length + base.length < PATH_MAX - 1)) := by
  unfold mediaEntryAction lookup_media_dir
  cases hd : e.isDir
  · simp [hd]
  · cases hg : digitInitial e.name
    · simp [hd, hg]
    · by_cases h3 : e.name.length + base.length < PATH_MAX - 1
      · cases hA : f (base ++ e.name) "Android"
        · simp [hd, hg, h3, hA]
        · cases hD : f (base ++ e.name ++ "/" ++ "Android") "data"
          · simp [hd, hg, h3, hA, hD]
          · simp [hd, hg, h3, hA, hD]
      · simp [hd, hg, h3]

/-- Claim C6 (amended): when `free_cache` must evict, the roots handed
to `add_cache_files` are exactly: user 0's data directory (internal
storage only); every directory entry other than `.` and `..` under the
secondary-user data root, with no numeric-name restriction; and, for
every directory entry under the external-media root whose name starts
with a digit and whose user directory contains both `Android/` and
`Android/data/`, that `Android/data` subdirectory — all subject to the
path-buffer length guard. -/
theorem free_cache_roots_matches_amended (uuid : Option String) (freeSize : Int)
    (env : FreeCacheEnv)
    (h0 : 0 ≤ env.availBefore) (h1 : env.availBefore < freeSize) :
    ∀ r, r ∈ (free_cache uuid freeSize env).2 ↔
      ((uuid = none ∧ r = create_data_user_path none 0) ∨
       (∃ e ∈ env.dataEntries.getD [], e.isDir = true ∧ e.name ≠ "." ∧ e.name ≠ ".." ∧
         e.name.length + (freeCacheDataBase uuid).length < PATH_MAX - 1 ∧
         r = freeCacheDataBase uuid ++ e.name) ∨
       (∃ e ∈ env.mediaEntries.getD [], e.isDir = true ∧ digitInitial e.name = true ∧
         e.name.length + android_media_dir_path.length < PATH_MAX - 1 ∧
         env.hasSubdir (android_media_dir_path ++ e.name) "Android" = true ∧
         env.hasSubdir (android_media_dir_path ++ e.name ++ "/" ++ "Android") "data" = true ∧
         r = android_media_dir_path ++ e.name ++ "/" ++ "Android" ++ "/" ++ "data")) := by
  intro r
  have hng : ¬ env.availBefore < 0 := by omega
  have hng2 : ¬ freeSize ≤ env.availBefore := by omega
  rw [free_cache, if_neg hng, if_neg hng2]
  simp only [List.mem_append, mem_sweepRoots_map, mem_ite_nil, List.mem_singleton,
    dataUserEntryAction_addRoot_iff, mediaEntryAction_addRoot_iff]
  exact or_assoc

/-- Witness for the amended C6: both a secondary-user root and a media
`Android/data` root are collected. -/
theorem free_cache_roots_matches_amended_witness :
    0 ≤ fcEnvW.availBefore ∧ fcEnvW.availBefore < 5 ∧
    "/data/user/10" ∈ (free_cache none 5 fcEnvW).2 ∧
    "/data/media/0/Android/data" ∈ (free_cache none 5 fcEnvW).2 :=
  ⟨by decide, by decide,
    (free_cache_roots_matches_amended none 5 fcEnvW (by decide) (by decide)
      "/data/user/10").mpr (by decide),
    (free_cache_roots_matches_amended none 5 fcEnvW (by decide) (by decide)
      "/data/media/0/Android/data").mpr (by decide)⟩

/-- Counterexample to C6 as stated: a non-numeric directory name under
the data root participates in the sweep, as does a media directory
whose name is not numeric but merely starts with a digit. -/
theorem free_cache_non_numeric_dirs_participate :
    (free_cache (some "v") 5 fcEnvC).2 =
      ["/mnt/expand/v/user/foo", "/data/media/1abc/Android/data"] ∧
    isNumericName "foo" = false ∧ isNumericName "1abc" = false :=
  ⟨by decide, by decide, by decide⟩

/-- Claim C7 (amended): in the secondary-user loop only `.` and `..`
(and non-directory entries) are skipped — a directory whose name merely
starts with `.` participates; in the media loop every directory entry
whose name starts with `.` (more generally, does not start with a
digit) is skipped; in both loops an otherwise-eligible entry whose name
would exceed the path buffer is skipped with a warning. -/
theorem free_cache_sweep_skipping_matches_amended :
    (∀ base e, dataUserEntryAction base e = .skip ↔
      (e.isDir = false ∨ e.name = "." ∨ e.name = "..")) ∧
    (∀ base e, dataUserEntryAction base e = .warn ↔
      (e.isDir = true ∧ e.name ≠ "." ∧ e.name ≠ ".." ∧
        ¬ (e.name.length + base.length < PATH_MAX - 1))) ∧
    (∀ (f : String → String → Bool) base e, e.name.data.head? = some '.' →
      mediaEntryAction f base e = .skip) ∧
    (∀ (f : String → String → Bool) base e, mediaEntryAction f base e = .warn ↔
      (e.isDir = true ∧ digitInitial e.name = true ∧
        ¬ (e.name.length + base.length < PATH_MAX - 1))) := by
  refine ⟨dataUserEntryAction_skip_iff, dataUserEntryAction_warn_iff, ?_, mediaEntryAction_warn_iff⟩
  intro f base e hdot
  unfold mediaEntryAction
  cases hd : e.isDir
  · simp [hd]
  · simp [hd, digitInitial_dot e.name hdot]

/-- Witness for the amended C7: `..` is skipped in the data loop, a
dot-named entry is skipped in the media loop. -/
theorem free_cache_sweep_skipping_matches_amended_witness :
    dataUserEntryAction "/data/user/" ⟨"..", true⟩ = .skip ∧
    mediaEntryAction (fun _ _ => true) "/data/media/" ⟨".x", true⟩ = .skip :=
  ⟨(free_cache_sweep_skipping_matches_amended.1 "/data/user/" ⟨"..", true⟩).mpr (by decide),
   free_cache_sweep_skipping_matches_amended.2.2.1 (fun _ _ => true) "/data/media/"
     ⟨".x", true⟩ (by decide)⟩

/-- Counterexample to C7 as stated: in the secondary-user loop a
directory named `.hidden` — a name starting with `.` — is not skipped:
it contributes a sweep root. -/
theorem free_cache_dot_dir_not_skipped :
    (free_cache (some "v") 5 fcEnvH).2 = ["/mnt/expand/v/user/.hidden"] ∧
    (".hidden" : String).data.head? = some '.' :=
  ⟨by decide, by decide⟩

/-- Claim C8: for an absolute overlay path of length at least 2,
`flatten_path` writes `prefix ++ flattened ++ suffix` where the
flattened part is the overlay path without its leading `/` and with
every `/` replaced by `@` (stated for a slash-free suffix, as the
substitution also covers the suffix region of the buffer); any
non-absolute or too-short input is rejected, as is any input whose
length sums would overflow `size_t` or exceed the output buffer. -/
theorem flatten_path_matches_claim (pfx sfx overlay : String) (N : Nat) :
    (2 ≤ overlay.length → overlay.data.head? = some '/' →
      pfx.length + overlay.length + sfx.length ≤ SIZE_MAX →
      pfx.length + overlay.length + sfx.length ≤ N →
      '/' ∉ sfx.data →
      flatten_path pfx sfx overlay N =
        some (pfx ++ String.mk ((overlay.data.drop 1).map flattenChar) ++ sfx)) ∧
    (overlay.length < 2 ∨ overlay.data.head? ≠ some '/' →
      flatten_path pfx sfx overlay N = none) ∧
    (SIZE_MAX - pfx.length < overlay.length ∨
        SIZE_MAX - (pfx.length + overlay.length) < sfx.length ∨
        N < pfx.length + overlay.length + sfx.length →
      flatten_path pfx sfx overlay N = none) := by
  refine ⟨?_, ?_, ?_⟩
  · intro hlen hhead hsz hN hs
    have hg1 : ¬ (overlay.length < 2 ∨ overlay.data.head? ≠ some '/') := by
      push_neg
      exact ⟨by omega, hhead⟩
    have hg2 : ¬ (SIZE_MAX - pfx.length < overlay.length ∨
        SIZE_MAX - (pfx.length + overlay.length) < sfx.length) := by
      push_neg
      constructor <;> omega
    have hg3 : ¬ (N < pfx.length + overlay.length + sfx.length) := by omega
    rw [flatten_path, if_neg hg1, if_neg hg2, if_neg hg3]
    have hmap : (overlay.data.drop 1 ++ sfx.data).map flattenChar =
        (overlay.data.drop 1).map flattenChar ++ sfx.data := by
      rw [List.map_append, map_flattenChar_self sfx.data hs]
    rw [hmap, ← mk_append, mk_data, ← String.append_assoc]
  · intro h
    rw [flatten_path, if_pos h]
  · intro h
    by_cases hg1 : overlay.length < 2 ∨ overlay.data.head? ≠ some '/'
    · rw [flatten_path, if_pos hg1]
    · rw [flatten_path, if_neg hg1]
      by_cases hg2 : SIZE_MAX - pfx.length < overlay.length ∨
          SIZE_MAX - (pfx.length + overlay.length) < sfx.length
      · rw [if_pos hg2]
      · rw [if_neg hg2]
        have hg3 : N < pfx.length + overlay.length + sfx.length := by
          rcases h with h | h | h
          · exact absurd (Or.inl h) hg2
          · exact absurd (Or.inr h) hg2
          · exact h
        rw [if_pos hg3]

/-- Witness for C8 at the spec's concrete example. -/
theorem flatten_path_matches_claim_witness :
    2 ≤ ("/a/b/c.apk" : String).length ∧
    ("/a/b/c.apk" : String).data.head? = some '/' ∧
    flatten_path "/data/resource-cache/" "@idmap" "/a/b/c.apk" 4096 =
      some "/data/resource-cache/a@b@c.apk@idmap" := by
  refine ⟨by decide, by decide, ?_⟩
  have h := (flatten_path_matches_claim "/data/resource-cache/" "@idmap" "/a/b/c.apk" 4096).1
    (by decide) (by decide) (by decide) (by decide) (by decide)
  rw [h]
  decide

/-- Claim C9: with both storage classes enabled, a failing CE relabel
makes `restorecon_app_data` return -1, while a failing DE relabel is
only logged and the call still returns 0 when CE succeeded. -/
theorem restorecon_app_data_de_errors_ignored (uuid : Option String)
    (pkg seinfo : String) (user : Nat) (env : RestoreconEnv) :
    (env.restoreconPkgOk (create_data_user_package_path uuid user pkg) = false →
      (restorecon_app_data uuid (some pkg) (some seinfo) user true true env).1 = -1) ∧
    (env.restoreconPkgOk (create_data_user_package_path uuid user pkg) = true →
      (restorecon_app_data uuid (some pkg) (some seinfo) user true true env).1 = 0) := by
  constructor
  · intro hce
    simp [restorecon_app_data, hce]
  · intro hce
    simp [restorecon_app_data, hce]

/-- Witness for C9: CE succeeds, DE fails, the call returns 0. -/
theorem restorecon_app_data_de_errors_ignored_witness :
    rcEnvW.restoreconPkgOk (create_data_user_package_path none 0 "com.x") = true ∧
    rcEnvW.restoreconPkgOk (create_data_user_de_package_path none 0 "com.x") = false ∧
    (restorecon_app_data none (some "com.x") (some "platform") 0 true true rcEnvW).1 = 0 :=
  ⟨by decide, by decide,
    (restorecon_app_data_de_errors_ignored none "com.x" "platform" 0 rcEnvW).2 (by decide)⟩

/-- Claim C10: for a valid (apk path, instruction set) whose computed
cache OAT path does not exist, `rm_dex` returns -1 (a missing file is a
failure, `unlink`'s `ENOENT` notwithstanding) and the filesystem is
unchanged. -/
theorem rm_dex_missing_output_fails (path isa : String) (env : RmDexEnv)
    (dexPath : String)
    (hvalid : env.validApk = true ∨ env.validSys = true)
    (hpath : create_cache_path path isa = some dexPath)
    (hmiss : env.fs dexPath = false) :
    rm_dex path isa env = (-1, env.fs) := by
  have hguard : ¬ (¬ env.validApk ∧ ¬ env.validSys) := by
    rcases hvalid with h | h <;> simp [h]
  rw [rm_dex, if_neg hguard, hpath]
  simp [hmiss]

/-- Witness for C10 at a concrete missing cache path. -/
theorem rm_dex_missing_output_fails_witness :
    rmEnvW.validApk = true ∧
    create_cache_path "/data/app/a.apk" "arm" =
      some "/data/dalvik-cache/arm/data@app@a.apk@classes.dex" ∧
    rmEnvW.fs "/data/dalvik-cache/arm/data@app@a.apk@classes.dex" = false ∧
    rm_dex "/data/app/a.apk" "arm" rmEnvW = (-1, rmEnvW.fs) :=
  ⟨by decide, by decide, by decide,
    rm_dex_missing_output_fails "/data/app/a.apk" "arm" rmEnvW
      "/data/dalvik-cache/arm/data@app@a.apk@classes.dex"
      (Or.inl (by decide)) (by decide) (by decide)⟩

end Installd
